import Mathlib

/-
Verification of providers/src/airflow/providers/standard/utils/python_virtualenv.py.

Shallow embedding conventions:
* A shell command is a `List String` of argument tokens (never concatenated).
* External side effects (file writes via `Path.write_text`, subprocess
  execution via `execute_in_subprocess`) are recorded in an ordered `Effect`
  trace; the trace of a run contains exactly the effects performed before the
  run returned or raised.
* Python exceptions are modelled by `Except PyError`: `ValueError` raised at
  line 123, and `NameError`, which CPython raises when a function body refers
  to a global name that is defined neither in the module nor in builtins
  (`prepare_virtualenv` calls `_generate_pip_install_cmd_from_list` and
  `_generate_pip_install_cmd_from_file`, neither of which is defined anywhere
  in the module; the module defines `_generate_install_cmd_from_list` and
  `_generate_install_cmd_from_file` instead).
* `sys.executable` and `os.path.dirname(__file__)` are ambient interpreter
  state; they are passed as explicit parameters.
-/

/-- One observable side effect of a provisioning run: a text-file write or a
subprocess execution of a token-list command. -/
inductive Effect where
  | writeFile (path : String) (content : String)
  | subprocess (cmd : List String)
  deriving DecidableEq, Repr

/-- The Python exceptions `prepare_virtualenv` can raise: the explicit
`ValueError` of line 123, and the `NameError` caused by calling an undefined
global name (lines 127 and 129). -/
inductive PyError where
  | valueError (msg : String)
  | nameError (missing : String)
  deriving DecidableEq, Repr

/-- Embeds `_generate_venv_cmd` (lines 32-39).  `python_bin : Option String`
models the `None` check of line 34; `sys_executable` is the ambient
`sys.executable` used as the default interpreter. -/
def _generate_venv_cmd (tmp_dir : String) (python_bin : Option String)
    (system_site_packages : Bool) (sys_executable : String) : List String :=
  let python_bin := python_bin.getD sys_executable
  let cmd := [python_bin, "-m", "venv", tmp_dir]
  if system_site_packages then cmd ++ ["--system-site-packages"] else cmd

/-- Embeds `_generate_install_cmd_from_list` (lines 42-56). -/
def _generate_install_cmd_from_list (venv_directory : String)
    (requirements : List String) (install_options : List String)
    (installer : String) : List String :=
  if installer = "uv" then
    [venv_directory ++ "/bin/uv", "pip", "install"] ++ install_options ++ requirements
  else
    [venv_directory ++ "/bin/pip", "install"] ++ install_options ++ requirements

/-- Embeds `_generate_install_cmd_from_file` (lines 59-73). -/
def _generate_install_cmd_from_file (venv_directory : String)
    (requirements_file_path : String) (install_options : List String)
    (installer : String) : List String :=
  if installer = "uv" then
    [venv_directory ++ "/bin/uv", "pip", "install"] ++ install_options
      ++ ["-r", requirements_file_path]
  else
    [venv_directory ++ "/bin/pip", "install"] ++ install_options
      ++ ["-r", requirements_file_path]

/-- The text `_generate_pip_conf` (lines 76-83) writes to `conf_file`.
With `index_urls = u :: rest`, the source condition `len(index_urls) > 1`
is `rest.length > 0`, and `index_urls[1:]` is `rest`. -/
def _generate_pip_conf_content (index_urls : List String) : String :=
  let pip_conf_options :=
    match index_urls with
    | [] => "no-index = true"
    | u :: rest =>
      let opts := "index-url = " ++ u
      if rest.length > 0 then
        opts ++ "\nextra-index-url = " ++ String.intercalate " " rest
      else
        opts
  "[global]\n" ++ pip_conf_options

/-- Default value of the `installer` parameter in the signature of
`prepare_virtualenv` (line 94: `installer: str = "pip"`). -/
def prepare_virtualenv_default_installer : String := "pip"

set_option linter.unusedVariables false in
/-- Embeds `prepare_virtualenv` (lines 86-136).  Returns the ordered trace of
effects performed together with the outcome (the returned string, or the
exception raised).  The body follows the source line by line:
* lines 116-117: when `index_urls` is not `None`, `_generate_pip_conf` writes
  `<venv_directory>/pip.conf`;
* lines 119-120: the venv-creation command is built and executed;
* lines 122-123: `ValueError` when both `requirements` and
  `requirements_file_path` are not `None`;
* lines 126-127: when `requirements` is not `None` and non-empty, the call to
  the undefined global `_generate_pip_install_cmd_from_list` raises
  `NameError`;
* lines 128-131: when `requirements_file_path` is not `None` and truthy
  (non-empty string), the call to the undefined global
  `_generate_pip_install_cmd_from_file` raises `NameError`;
* line 136: otherwise `pip_cmd` stays `None`, no install subprocess runs, and
  `f"{venv_directory}/bin/python"` is returned.
`pip_install_options` (defaulted to `[]` at lines 113-114) and `installer`
are accepted but never reach a defined builder on any path, hence the
disabled unused-variable linter. -/
def prepare_virtualenv (venv_directory : String) (python_bin : Option String)
    (system_site_packages : Bool) (requirements : Option (List String))
    (requirements_file_path : Option String)
    (pip_install_options : Option (List String))
    (index_urls : Option (List String)) (installer : String)
    (sys_executable : String) : List Effect × Except PyError String :=
  let effects0 : List Effect :=
    match index_urls with
    | some urls =>
      [Effect.writeFile (venv_directory ++ "/pip.conf") (_generate_pip_conf_content urls)]
    | none => []
  let venv_cmd := _generate_venv_cmd venv_directory python_bin system_site_packages sys_executable
  let effects1 := effects0 ++ [Effect.subprocess venv_cmd]
  if requirements.isSome && requirements_file_path.isSome then
    (effects1, Except.error (PyError.valueError
      "Either requirements OR requirements_file_path has to be passed, but not both"))
  else if (match requirements with
           | some rs => rs.length != 0
           | none => false) then
    (effects1, Except.error (PyError.nameError "_generate_pip_install_cmd_from_list"))
  else if (match requirements_file_path with
           | some fp => fp != ""
           | none => false) then
    (effects1, Except.error (PyError.nameError "_generate_pip_install_cmd_from_file"))
  else
    (effects1, Except.ok (venv_directory ++ "/bin/python"))

/-- The file writes of an effect trace, in order. -/
def fileWrites : List Effect → List (String × String)
  | [] => []
  | Effect.writeFile p c :: rest => (p, c) :: fileWrites rest
  | Effect.subprocess _ :: rest => fileWrites rest

/-- The subprocess commands of an effect trace, in order. -/
def subprocessCmds : List Effect → List (List String)
  | [] => []
  | Effect.writeFile _ _ :: rest => subprocessCmds rest
  | Effect.subprocess c :: rest => c :: subprocessCmds rest

/-
Embedding of `write_python_script` (lines 139-166).  The jinja2 engine and
the template file `python_virtualenv_script.jinja2` are not under src/ (the
engine is an external collaborator, the template ships next to the module),
so the rendering machinery is modelled from the spec.
-/

/-- Modelled from the spec: the template engine is "given a template name
resolvable under a fixed search root" and exposes "stream/render with a given
variable namespace, strict-undefined" semantics.  A compiled template is a
sequence of chunks, each either a literal text piece or a reference to a
context variable. -/
inductive Chunk where
  | lit (s : String)
  | var (name : String)
  deriving DecidableEq, Repr

/-- Lookup of a variable in the render context (the template's variable
namespace, bound by `**jinja_context`). -/
def ctxLookup : List (String × String) → String → Option String
  | [], _ => none
  | (k, v) :: rest, n => if k = n then some v else ctxLookup rest n

/-- Modelled from the spec: streaming render-and-dump with strict-undefined
semantics (`template.stream(**jinja_context).dump(filename)`, line 166).
Chunks are rendered and written to the output file one by one; a chunk that
references a variable absent from the context raises the strict-undefined
error at that point (spec: "no silent empty substitution"), after the chunks
before it have already been written.  Returns the content written to the
file together with the name of the offending variable, if any. -/
def renderChunks : List Chunk → List (String × String) → String × Option String
  | [], _ => ("", none)
  | Chunk.lit s :: rest, ctx =>
    let r := renderChunks rest ctx
    (s ++ r.1, r.2)
  | Chunk.var n :: rest, ctx =>
    match ctxLookup ctx n with
    | some v =>
      let r := renderChunks rest ctx
      (v ++ r.1, r.2)
    | none => ("", some n)

/-- What one call to `write_python_script` did: how the environment and
loader were configured, and what reached the output file. -/
structure RenderRun where
  searchPath : String
  templateName : String
  strictUndefined : Bool
  nativeMode : Bool
  outputPath : String
  fileContent : String
  error : Option String
  deriving DecidableEq, Repr

/-- Embeds `write_python_script` (lines 139-166).  `loader` models the
`jinja2.FileSystemLoader`: it maps a search path and a template name to the
compiled template found there.  `module_dirname` is the ambient
`os.path.dirname(__file__)` (line 153).  Both branches of the
`render_template_as_native_obj` conditional construct their environment with
`undefined=jinja2.StrictUndefined` (lines 156-164), so `strictUndefined` is
`true` on both paths; the template streamed is always
`python_virtualenv_script.jinja2` (line 165), regardless of the arguments. -/
def write_python_script (loader : String → String → List Chunk)
    (module_dirname : String) (jinja_context : List (String × String))
    (filename : String) (render_template_as_native_obj : Bool) : RenderRun :=
  let template := loader module_dirname "python_virtualenv_script.jinja2"
  let r := renderChunks template jinja_context
  { searchPath := module_dirname
    templateName := "python_virtualenv_script.jinja2"
    strictUndefined := true
    nativeMode := render_template_as_native_obj
    outputPath := filename
    fileContent := r.1
    error := r.2 }

/-
Theorems, one per claim.
-/

/-- Claim C4: for an empty `index_urls` the generated index-config content is
exactly `[global]\nno-index = true`; for non-empty `index_urls = u1 :: rest`
it is `[global]\nindex-url = u1`, followed, iff more than one URL was given,
by a newline and an `extra-index-url` directive listing the remaining URLs
space-separated in input order. -/
theorem pip_conf_content_spec :
    _generate_pip_conf_content [] = "[global]\nno-index = true" ∧
    ∀ (u1 : String) (rest : List String),
      _generate_pip_conf_content (u1 :: rest) =
        "[global]\nindex-url = " ++ u1 ++
          (if rest = [] then ""
           else "\nextra-index-url = " ++ String.intercalate " " rest) := by
  refine ⟨rfl, fun u1 rest => ?_⟩
  cases rest with
  | nil =>
    simp [_generate_pip_conf_content]
    rw [← String.append_assoc]
    exact rfl
  | cons r rs =>
    simp [_generate_pip_conf_content, String.append_assoc]
    rw [← String.append_assoc]
    exact rfl

/-- Claim C5: with installer `uv` the list-based install command is
`[<sandbox>/bin/uv, pip, install, *options, *requirements]`, with installer
`pip` it is `[<sandbox>/bin/pip, install, *options, *requirements]`; the
file-based command shows the same leading-token difference and ends with
`-r <file_path>` after the install options. -/
theorem install_cmd_spec (venv_directory requirements_file_path : String)
    (requirements install_options : List String) :
    _generate_install_cmd_from_list venv_directory requirements install_options "uv" =
      [venv_directory ++ "/bin/uv", "pip", "install"] ++ install_options ++ requirements ∧
    _generate_install_cmd_from_list venv_directory requirements install_options "pip" =
      [venv_directory ++ "/bin/pip", "install"] ++ install_options ++ requirements ∧
    _generate_install_cmd_from_file venv_directory requirements_file_path install_options "uv" =
      [venv_directory ++ "/bin/uv", "pip", "install"] ++ install_options
        ++ ["-r", requirements_file_path] ∧
    _generate_install_cmd_from_file venv_directory requirements_file_path install_options "pip" =
      [venv_directory ++ "/bin/pip", "install"] ++ install_options
        ++ ["-r", requirements_file_path] :=
  ⟨rfl, rfl, rfl, rfl⟩

/-- Claim C6: the venv-creation command is
`[interpreter-or-default, -m, venv, sandbox_path]` with the
`--system-site-packages` token appended iff `system_site_packages` is true,
and an absent `python_bin` is replaced by the interpreter currently running
the builder (`sys.executable`). -/
theorem venv_cmd_spec (tmp_dir : String) (python_bin : Option String)
    (system_site_packages : Bool) (sys_executable : String) :
    _generate_venv_cmd tmp_dir python_bin system_site_packages sys_executable =
      [python_bin.getD sys_executable, "-m", "venv", tmp_dir] ++
        (if system_site_packages then ["--system-site-packages"] else []) ∧
    _generate_venv_cmd tmp_dir none system_site_packages sys_executable =
      [sys_executable, "-m", "venv", tmp_dir] ++
        (if system_site_packages then ["--system-site-packages"] else []) := by
  cases system_site_packages <;> exact ⟨rfl, rfl⟩

/-- Claim C9: every installer string other than `uv` — not only `pip` —
falls through to the pip-shaped commands without any error, and the default
value of the `installer` parameter is `pip`. -/
theorem non_uv_installer_falls_through (venv_directory requirements_file_path : String)
    (requirements install_options : List String) (installer : String)
    (h : installer ≠ "uv") :
    _generate_install_cmd_from_list venv_directory requirements install_options installer =
      [venv_directory ++ "/bin/pip", "install"] ++ install_options ++ requirements ∧
    _generate_install_cmd_from_file venv_directory requirements_file_path install_options
        installer =
      [venv_directory ++ "/bin/pip", "install"] ++ install_options
        ++ ["-r", requirements_file_path] ∧
    prepare_virtualenv_default_installer = "pip" := by
  refine ⟨?_, ?_, rfl⟩ <;>
    simp only [_generate_install_cmd_from_list, _generate_install_cmd_from_file, if_neg h]

/-- Witness for the claim C9 theorem at the concrete installer `conda`. -/
theorem non_uv_installer_falls_through_witness :
    _generate_install_cmd_from_list "/tmp/x" ["a"] ["--upgrade"] "conda" =
      ["/tmp/x" ++ "/bin/pip", "install"] ++ ["--upgrade"] ++ ["a"] ∧
    _generate_install_cmd_from_file "/tmp/x" "/tmp/r.txt" ["--upgrade"] "conda" =
      ["/tmp/x" ++ "/bin/pip", "install"] ++ ["--upgrade"] ++ ["-r", "/tmp/r.txt"] ∧
    prepare_virtualenv_default_installer = "pip" :=
  non_uv_installer_falls_through "/tmp/x" "/tmp/r.txt" ["a"] ["--upgrade"] "conda" (by decide)

/-- Helper: on every path of `prepare_virtualenv`, the effect trace is the
optional pip.conf write followed by the single venv-creation subprocess. -/
lemma prepare_virtualenv_trace (venv_directory : String) (python_bin : Option String)
    (system_site_packages : Bool) (requirements : Option (List String))
    (requirements_file_path : Option String) (pip_install_options : Option (List String))
    (index_urls : Option (List String)) (installer sys_executable : String) :
    (prepare_virtualenv venv_directory python_bin system_site_packages requirements
        requirements_file_path pip_install_options index_urls installer sys_executable).1 =
      (match index_urls with
       | some urls =>
         [Effect.writeFile (venv_directory ++ "/pip.conf") (_generate_pip_conf_content urls)]
       | none => []) ++
      [Effect.subprocess
        (_generate_venv_cmd venv_directory python_bin system_site_packages sys_executable)] := by
  simp only [prepare_virtualenv]
  split_ifs <;> rfl

/-- Claim C1 (amended): a request supplying both `requirements` and
`requirements_file_path` always fails with the invalid-request `ValueError`
of line 123 and no install command is ever built or executed for it — but the
check runs only after the index-config write (when `index_urls` is present)
and after the venv-creation subprocess, so those side effects do occur. -/
theorem prepare_both_sources_valueerror (venv_directory : String)
    (python_bin : Option String) (system_site_packages : Bool) (rs : List String)
    (fp : String) (pip_install_options : Option (List String))
    (index_urls : Option (List String)) (installer sys_executable : String) :
    prepare_virtualenv venv_directory python_bin system_site_packages (some rs) (some fp)
        pip_install_options index_urls installer sys_executable =
      ((match index_urls with
        | some urls =>
          [Effect.writeFile (venv_directory ++ "/pip.conf") (_generate_pip_conf_content urls)]
        | none => []) ++
       [Effect.subprocess
         (_generate_venv_cmd venv_directory python_bin system_site_packages sys_executable)],
       Except.error (PyError.valueError
         "Either requirements OR requirements_file_path has to be passed, but not both")) := by
  cases index_urls <;> rfl

/-- Claim C1 counterexample: at a concrete request with both dependency
sources present (and `index_urls` supplied), the `ValueError` is indeed
raised, but only after side effects: the trace already holds the pip.conf
write and the executed venv-creation subprocess, so the failure is not
detected "before any subprocess is spawned and before any side effect
occurs". -/
theorem prepare_both_sources_after_side_effects :
    (prepare_virtualenv "/tmp/x" (some "/opt/py/bin/python3") false (some ["a"])
        (some "/tmp/r.txt") none (some ["http://idx"]) "pip" "/usr/bin/python3").2 =
      Except.error (PyError.valueError
        "Either requirements OR requirements_file_path has to be passed, but not both") ∧
    (prepare_virtualenv "/tmp/x" (some "/opt/py/bin/python3") false (some ["a"])
        (some "/tmp/r.txt") none (some ["http://idx"]) "pip" "/usr/bin/python3").1 =
      [Effect.writeFile "/tmp/x/pip.conf" "[global]\nindex-url = http://idx",
       Effect.subprocess ["/opt/py/bin/python3", "-m", "venv", "/tmp/x"]] ∧
    (prepare_virtualenv "/tmp/x" (some "/opt/py/bin/python3") false (some ["a"])
        (some "/tmp/r.txt") none (some ["http://idx"]) "pip" "/usr/bin/python3").1 ≠ [] :=
  ⟨rfl, rfl, by decide⟩

/-- Claim C2 (code bug): for the end-to-end request of the claim the venv is
created with the resolved default interpreter and no index-config file is
written, but then line 127 calls `_generate_pip_install_cmd_from_list`, a
global name defined nowhere in the module (the defined builder is
`_generate_install_cmd_from_list`), so the call raises `NameError` instead of
executing `[/tmp/x/bin/pip, install, a, b]` and returning
`/tmp/x/bin/python`. -/
theorem prepare_end_to_end_request_nameerror (sys_executable : String) :
    prepare_virtualenv "/tmp/x" none false (some ["a", "b"]) none none none "pip"
        sys_executable =
      ([Effect.subprocess [sys_executable, "-m", "venv", "/tmp/x"]],
       Except.error (PyError.nameError "_generate_pip_install_cmd_from_list")) := rfl

/-- Claim C7: a provisioning run writes `<venv_directory>/pip.conf` iff
`index_urls` is not absent; an absent `index_urls` leaves index configuration
untouched, while `some []` still writes the explicit no-index content. -/
theorem pip_conf_written_iff_index_urls_present (venv_directory : String)
    (python_bin : Option String) (system_site_packages : Bool)
    (requirements : Option (List String)) (requirements_file_path : Option String)
    (pip_install_options : Option (List String)) (index_urls : Option (List String))
    (installer sys_executable : String) :
    fileWrites (prepare_virtualenv venv_directory python_bin system_site_packages requirements
        requirements_file_path pip_install_options index_urls installer sys_executable).1 =
      match index_urls with
      | some urls => [(venv_directory ++ "/pip.conf", _generate_pip_conf_content urls)]
      | none => [] := by
  rw [prepare_virtualenv_trace]
  cases index_urls <;> rfl

/-- Claim C8: whenever `prepare_virtualenv` returns (rather than raises), the
returned string is `<venv_directory>/bin/python` — the conventional path of
the interpreter binary inside the sandbox, computed by line 136 and never
checked for existence (no effect in the trace reads the filesystem). -/
theorem prepare_result_is_sandbox_python (venv_directory : String)
    (python_bin : Option String) (system_site_packages : Bool)
    (requirements : Option (List String)) (requirements_file_path : Option String)
    (pip_install_options : Option (List String)) (index_urls : Option (List String))
    (installer sys_executable : String) (r : String)
    (h : (prepare_virtualenv venv_directory python_bin system_site_packages requirements
        requirements_file_path pip_install_options index_urls installer
        sys_executable).2 = Except.ok r) :
    r = venv_directory ++ "/bin/python" := by
  simp only [prepare_virtualenv] at h
  split_ifs at h
  simp_all

/-- Witness for the claim C8 theorem at a concrete successful request. -/
theorem prepare_result_is_sandbox_python_witness :
    "/tmp/x/bin/python" = "/tmp/x" ++ "/bin/python" :=
  prepare_result_is_sandbox_python "/tmp/x" none false none none none none "pip"
    "/usr/bin/python3" "/tmp/x/bin/python" rfl

/-- Helper: streaming render fails iff the template references a variable
absent from the context. -/
lemma renderChunks_error_isSome_iff (t : List Chunk) (ctx : List (String × String)) :
    (renderChunks t ctx).2.isSome = true ↔
      ∃ n, Chunk.var n ∈ t ∧ ctxLookup ctx n = none := by
  induction t with
  | nil => simp [renderChunks]
  | cons c rest ih =>
    cases c with
    | lit s =>
      simp only [renderChunks]
      rw [ih]
      constructor
      · rintro ⟨m, hm, hl⟩
        exact ⟨m, List.mem_cons_of_mem _ hm, hl⟩
      · rintro ⟨m, hm, hl⟩
        rcases List.mem_cons.mp hm with h1 | h2
        · exact absurd h1 (fun h => Chunk.noConfusion h)
        · exact ⟨m, h2, hl⟩
    | var n =>
      cases hn : ctxLookup ctx n with
      | some v =>
        simp only [renderChunks, hn]
        rw [ih]
        constructor
        · rintro ⟨m, hm, hl⟩
          exact ⟨m, List.mem_cons_of_mem _ hm, hl⟩
        · rintro ⟨m, hm, hl⟩
          rcases List.mem_cons.mp hm with h1 | h2
          · injection h1 with h1
            subst h1
            rw [hn] at hl
            exact absurd hl (fun h => Option.noConfusion h)
          · exact ⟨m, h2, hl⟩
      | none =>
        simp only [renderChunks, hn]
        exact iff_of_true rfl ⟨n, List.mem_cons_self _ _, hn⟩

/-- Claim C3 (amended): a render call fails with the strict-undefined
template-binding error exactly when the template references a variable absent
from the context (both environment flavors are built with
`undefined=jinja2.StrictUndefined`); but the rendering is streamed directly
into the output file by `stream(...).dump(filename)` with no
temporary-file-and-rename discipline, so on failure the content rendered
before the missing reference has already been written — for some render calls
a nonempty, partially-written output file is observable at the output path. -/
theorem write_python_script_strict_undefined :
    (∀ (loader : String → String → List Chunk) (module_dirname : String)
        (jinja_context : List (String × String)) (filename : String)
        (render_template_as_native_obj : Bool),
      (write_python_script loader module_dirname jinja_context filename
          render_template_as_native_obj).error.isSome = true ↔
        ∃ n, Chunk.var n ∈ loader module_dirname "python_virtualenv_script.jinja2" ∧
          ctxLookup jinja_context n = none) ∧
    ∃ (loader : String → String → List Chunk),
      (write_python_script loader "/mod" [] "/tmp/script.py" false).error.isSome = true ∧
      (write_python_script loader "/mod" [] "/tmp/script.py" false).fileContent ≠ "" := by
  constructor
  · intro loader module_dirname jinja_context filename render_template_as_native_obj
    exact renderChunks_error_isSome_iff
      (loader module_dirname "python_virtualenv_script.jinja2") jinja_context
  · exact ⟨fun _ _ => [Chunk.lit "x = 1\n", Chunk.var "arg"], by decide, by decide⟩

/-- Claim C3 counterexample: for the template made of the literal chunk
`x = 1\n` followed by a reference to the variable `arg`, rendering with an
empty context raises the strict-undefined error on `arg`, yet the literal
chunk has already been streamed to the output file: a nonempty,
partially-written file is observable at the output path, contrary to
"performs no file write, or a fully rolled-back one". -/
theorem write_python_script_partial_file_on_error :
    (write_python_script (fun _ _ => [Chunk.lit "x = 1\n", Chunk.var "arg"])
        "/mod" [] "/tmp/script.py" false).error = some "arg" ∧
    (write_python_script (fun _ _ => [Chunk.lit "x = 1\n", Chunk.var "arg"])
        "/mod" [] "/tmp/script.py" false).fileContent = "x = 1\n" ∧
    (write_python_script (fun _ _ => [Chunk.lit "x = 1\n", Chunk.var "arg"])
        "/mod" [] "/tmp/script.py" false).fileContent ≠ "" :=
  ⟨rfl, rfl, by decide⟩

/-- Claim C10: every call to `write_python_script` renders the template named
`python_virtualenv_script.jinja2`, resolved under the directory containing
the module itself; no argument of the call selects a different template
name. -/
theorem write_python_script_fixed_template
    (loader : String → String → List Chunk) (module_dirname : String)
    (jinja_context : List (String × String)) (filename : String)
    (render_template_as_native_obj : Bool) :
    (write_python_script loader module_dirname jinja_context filename
        render_template_as_native_obj).templateName = "python_virtualenv_script.jinja2" ∧
    (write_python_script loader module_dirname jinja_context filename
        render_template_as_native_obj).searchPath = module_dirname :=
  ⟨rfl, rfl⟩
